import Mathlib

/-
  Verification development for the gowl worker pool.

  Part 1 embeds the process status package (src/status/process/status.go)
  and the test helpers of the repository (mock processes, process bodies,
  batch construction).  Part 2 models the pool engine itself (state machine,
  registry/queue, worker execution, cancellation, monitor) from the
  specification, since the pool source file is not part of the sources at
  hand.  Go errors are modelled by their message string; a nil error is
  Option.none.  The Go context handed to a process body is modelled by a
  single observable bit: whether the unit's cancellation token has fired.
-/

namespace process

/-- From src/status/process/status.go: `type Status int`. -/
abbrev Status := Int

/-- `Waiting Status = iota`: the zero constant. -/
def Waiting : Status := 0

/-- `Running`: second constant of the iota block. -/
def Running : Status := 1

/-- `Succeeded`: third constant of the iota block. -/
def Succeeded : Status := 2

/-- `Failed`: fourth constant of the iota block. -/
def Failed : Status := 3

/-- `Killed`: fifth constant of the iota block. -/
def Killed : Status := 4

/-- The `status2String` map of status.go: a finite map from Status to
string whose miss case yields the map's zero value, the empty string. -/
def status2String (s : Status) : String :=
  if s = Waiting then "Waiting"
  else if s = Running then "Running"
  else if s = Succeeded then "Succeeded"
  else if s = Failed then "Failed"
  else if s = Killed then "Killed"
  else ""

/-- The `String()` method of Status: `return status2String[s]`. -/
def statusString (s : Status) : String :=
  status2String s

end process

/-- Process bodies in the tests have type
`func(ctx context.Context, pid PID, duration time.Duration) error`.
The context is modelled by whether the unit's cancellation token has
fired, the duration by a Nat of milliseconds, the error by its message. -/
abbrev PTestFunc := Bool → String → Nat → Option String

/-- `var errCancelled = errors.New("task was cancelled")` from the tests. -/
def errCancelled : String := "task was cancelled"

/-- `processFunc` from the tests: sleeps for the duration unless the
context is done first, in which case it returns errCancelled. -/
def processFunc : PTestFunc := fun ctxDone _pid _d =>
  if ctxDone then some errCancelled else none

/-- `processFuncWithError` from the tests: always returns an error naming
the pid. -/
def processFuncWithError : PTestFunc := fun _ctxDone pid _d =>
  some ("unable to start processFunc with id: " ++ pid)

/-- `mockProcess` from the tests: name, pid, sleep time and a body. -/
structure mockProcess where
  name : String
  pid : String
  sleepTime : Nat
  pFunc : PTestFunc

/-- `mockProcess.Start(ctx)`: `return t.pFunc(ctx, t.pid, t.sleepTime)`. -/
def mockProcessStart (t : mockProcess) (ctxDone : Bool) : Option String :=
  t.pFunc ctxDone t.pid t.sleepTime

/-- `newTestProcess` from the tests: the pid is "p-" followed by the
decimal representation of id. -/
def newTestProcess (name : String) (id : Int) (duration : Nat) (f : PTestFunc) : mockProcess :=
  { name := name
    pid := "p-" ++ toString id
    sleepTime := duration
    pFunc := f }

/-- `createProcess(n, g, d, f)` from the tests: the loop
`for i := 1; i <= n; i++` appends `newTestProcess("p-"+itoa(i), g*10+i, d, f)`;
the loop body runs for i = 1 .. n, i.e. not at all when n ≤ 0. -/
def createProcess (n g : Int) (d : Nat) (f : PTestFunc) : List mockProcess :=
  (List.range n.toNat).map
    (fun (k : Nat) =>
      newTestProcess ("p-" ++ toString ((k : Int) + 1)) (g * 10 + ((k : Int) + 1)) d f)

/-- Modelled from the spec: the status/pool package is not among the
sources at hand.  PoolStatus is one of Created, Running, Closed, with the
stringification tokens "Created", "Running", "Closed". -/
inductive PoolStatus where
  | Created
  | Running
  | Closed
  deriving DecidableEq, Repr

/-- Modelled from the spec: stringification of PoolStatus. -/
def poolStatusString : PoolStatus → String
  | PoolStatus.Created => "Created"
  | PoolStatus.Running => "Running"
  | PoolStatus.Closed => "Closed"

/-- Modelled from the spec: the per-unit process record of the pool's
index (section 3 of the spec); the pool implementation file is not among
the sources at hand.  `cancelled` is the one-shot cancellation token,
`bodyInvoked` records whether a worker ever invoked the unit's body,
`ended` whether a worker recorded a terminal outcome for an invoked body. -/
structure ProcRecord where
  proc : mockProcess
  status : process.Status
  err : Option String
  cancelled : Bool
  bodyInvoked : Bool
  ended : Bool

/-- Modelled from the spec: the pool record — size, pool status, FIFO
queue of pids, and the index mapping pid to process record. -/
structure PoolState where
  size : Int
  status : PoolStatus
  queue : List String
  index : List (String × ProcRecord)

/-- Lookup of a pid in the index (first matching entry). -/
def lookupRec : List (String × ProcRecord) → String → Option ProcRecord
  | [], _ => none
  | e :: t, pid => if e.1 = pid then some e.2 else lookupRec t pid

/-- Pointwise update of the record stored under a pid. -/
def updateRec : List (String × ProcRecord) → String → (ProcRecord → ProcRecord) → List (String × ProcRecord)
  | [], _, _ => []
  | e :: t, pid, f => (if e.1 = pid then (e.1, f e.2) else e) :: updateRec t pid f

/-- Modelled from the spec: `NewPool(size)` returns a pool with status
Created and empty queue and index. -/
def NewPool (size : Int) : PoolState :=
  { size := size, status := PoolStatus.Created, queue := [], index := [] }

/-- The fresh record built by Register for a unit: status Waiting, no
error, token not fired, body not yet invoked. -/
def freshRecord (p : mockProcess) : ProcRecord :=
  { proc := p
    status := process.Waiting
    err := none
    cancelled := false
    bodyInvoked := false
    ended := false }

/-- Modelled from the spec: insertion of one process into queue + index;
a pid already present is rejected (the spec's duplicate-rejection policy). -/
def registerOne (s : PoolState) (p : mockProcess) : PoolState :=
  if (lookupRec s.index p.pid).isSome then s
  else
    { s with
      queue := s.queue ++ [p.pid]
      index := s.index ++ [(p.pid, freshRecord p)] }

/-- Modelled from the spec: `Register(processes…)` appends the records in
order; in a Closed pool registration is rejected. -/
def Register (s : PoolState) (ps : List mockProcess) : PoolState :=
  if s.status = PoolStatus.Closed then s else ps.foldl registerOne s

/-- Modelled from the spec: `Start()` transitions Created to Running; in
any other pool status it leaves the pool unchanged and returns the
pool-state error "unable to start the pool, status: <PoolStatus>". -/
def StartPool (s : PoolState) : PoolState × Option String :=
  if s.status = PoolStatus.Created then
    ({ s with status := PoolStatus.Running }, none)
  else
    (s, some ("unable to start the pool, status: " ++ poolStatusString s.status))

/-- Modelled from the spec: `Close()` transitions Running to Closed; in
any other pool status it leaves the pool unchanged and returns the
pool-state error "pool is not running, status <PoolStatus>". -/
def ClosePool (s : PoolState) : PoolState × Option String :=
  if s.status = PoolStatus.Running then
    ({ s with status := PoolStatus.Closed }, none)
  else
    (s, some ("pool is not running, status " ++ poolStatusString s.status))

/-- Modelled from the spec: `Kill(pid)` (section 4.3).  On a Waiting
record: status Killed, the standard cancellation error stored, token
fired.  On a Running record: status Killed, token fired (the worker
stores the body's error when it returns).  Terminal records and unknown
pids: no-op. -/
def Kill (s : PoolState) (pid : String) : PoolState :=
  match lookupRec s.index pid with
  | none => s
  | some r =>
    if r.status = process.Waiting then
      { s with
        index := updateRec s.index pid (fun r0 =>
          { r0 with status := process.Killed, err := some errCancelled, cancelled := true }) }
    else if r.status = process.Running then
      { s with
        index := updateRec s.index pid (fun r0 =>
          { r0 with status := process.Killed, cancelled := true }) }
    else s

/-- Modelled from the spec: a worker dequeues the head of the queue.  A
Waiting record transitions to Running and its body is invoked; a record
whose status is no longer Waiting (killed while Waiting) is skipped with
its status and error left intact. -/
def workerDequeue (s : PoolState) : PoolState :=
  match s.queue with
  | [] => s
  | pid :: rest =>
    match lookupRec s.index pid with
    | none => { s with queue := rest }
    | some r =>
      if r.status = process.Waiting then
        { s with
          queue := rest
          index := updateRec s.index pid (fun r0 =>
            { r0 with status := process.Running, bodyInvoked := true }) }
      else { s with queue := rest }

/-- Modelled from the spec: the outcome a worker records on a record
whose body has returned.  `r.proc.pFunc r.cancelled r.proc.pid
r.proc.sleepTime` is the value returned by the body (`mockProcessStart`
under the unit's token).  If the record was pre-marked Killed, the status
stays Killed and the returned error is stored; otherwise no error means
Succeeded and a non-empty error means Failed, stored verbatim. -/
def finishRecord (r : ProcRecord) : ProcRecord :=
  if r.status = process.Killed then
    { r with
      err := r.proc.pFunc r.cancelled r.proc.pid r.proc.sleepTime
      ended := true }
  else if r.status = process.Running then
    { r with
      status := (match r.proc.pFunc r.cancelled r.proc.pid r.proc.sleepTime with
                 | none => process.Succeeded
                 | some _ => process.Failed)
      err := r.proc.pFunc r.cancelled r.proc.pid r.proc.sleepTime
      ended := true }
  else r

/-- Modelled from the spec: a worker observes the return value of an
invoked body and records the outcome (`finishRecord`); a record whose
body was never invoked, or whose outcome is already recorded, is left
alone. -/
def workerFinish (s : PoolState) (pid : String) : PoolState :=
  match lookupRec s.index pid with
  | none => s
  | some r =>
    if r.bodyInvoked && !r.ended then
      { s with index := updateRec s.index pid finishRecord }
    else s

/-- Modelled from the spec: `Monitor.ProcessStats(pid).status`. -/
def monitorProcessStatus (s : PoolState) (pid : String) : Option process.Status :=
  (lookupRec s.index pid).map (fun r => r.status)

/-- Modelled from the spec: `Monitor.Error(pid)`, the stored error. -/
def monitorError (s : PoolState) (pid : String) : Option String :=
  (lookupRec s.index pid).bind (fun r => r.err)

/-- Modelled from the spec: `Monitor.PoolStatus()`. -/
def monitorPoolStatus (s : PoolState) : PoolStatus :=
  s.status

/-- The operations of the pool, for quantifying over arbitrary
continuations of an execution: registration, the two lifecycle
transitions, targeted cancellation, and the two halves of a worker's
handling of a unit. -/
inductive Op where
  | register (ps : List mockProcess)
  | start
  | kill (pid : String)
  | close
  | dequeue
  | finish (pid : String)

/-- One step of the pool, ignoring the error component of Start/Close. -/
def applyOp (s : PoolState) (op : Op) : PoolState :=
  match op with
  | Op.register ps => Register s ps
  | Op.start => (StartPool s).1
  | Op.kill pid => Kill s pid
  | Op.close => (ClosePool s).1
  | Op.dequeue => workerDequeue s
  | Op.finish pid => workerFinish s pid

/-- A sequence of pool operations, applied left to right. -/
def applyOps (s : PoolState) (ops : List Op) : PoolState :=
  ops.foldl applyOp s

/-- A terminal process status: Succeeded, Failed or Killed. -/
def isTerminal (st : process.Status) : Prop :=
  st = process.Succeeded ∨ st = process.Failed ∨ st = process.Killed

/-- A pool that has been started: status Running. -/
def c5State : PoolState := (StartPool (NewPool 3)).1

/-- Worker and close steps after killing the waiting unit "p-18": the
eight remaining dequeues, which skip the killed record, then close. -/
def c2Ops : List Op :=
  [Op.dequeue, Op.dequeue, Op.dequeue, Op.dequeue,
   Op.dequeue, Op.dequeue, Op.dequeue, Op.dequeue, Op.close]

/-- The kill-after-start scenario of the tests: pool of 3, three units of
3 s each, the first two already picked up by workers. -/
def c1State : PoolState :=
  workerDequeue (workerDequeue
    (Register (StartPool (NewPool 3)).1 (createProcess 3 1 3000 processFunc)))

/-- The record held for "p-12" in `c1State`. -/
def c1Rec : ProcRecord :=
  { proc := newTestProcess "p-2" 12 3000 processFunc
    status := process.Running
    err := none
    cancelled := false
    bodyInvoked := true
    ended := false }

/-- The kill-before-run scenario of the tests: pool of 5, ten units
p-11 … p-20 of 3 s each, none picked up yet. -/
def c2State : PoolState :=
  Register (StartPool (NewPool 5)).1 (createProcess 10 1 3000 processFunc)

/-- The record held for "p-18" in `c2State`. -/
def c2Rec : ProcRecord :=
  freshRecord (newTestProcess "p-8" 18 3000 processFunc)

/-- A state holding a unit already killed while Waiting: its status is
terminal. -/
def c3State : PoolState :=
  Kill (Register (StartPool (NewPool 5)).1 (createProcess 1 1 100 processFunc)) "p-11"

/-- The failing-unit scenario of the tests: pool of 5, one unit "p-11"
whose body always returns an error, picked up by a worker. -/
def c6State : PoolState :=
  workerDequeue (Register (StartPool (NewPool 5)).1 (createProcess 1 1 1000 processFuncWithError))

/-- The record held for "p-11" in `c6State`. -/
def c6Rec : ProcRecord :=
  { proc := newTestProcess "p-1" 11 1000 processFuncWithError
    status := process.Running
    err := none
    cancelled := false
    bodyInvoked := true
    ended := false }

/- ------------------------------------------------------------------ -/
/- Helper lemmas about the index and the operations.                  -/
/- ------------------------------------------------------------------ -/

theorem lookupRec_append_left (l1 l2 : List (String × ProcRecord)) (pid : String)
    (r : ProcRecord) (h : lookupRec l1 pid = some r) :
    lookupRec (l1 ++ l2) pid = some r := by
  induction l1 with
  | nil => simp [lookupRec] at h
  | cons e t ih =>
    by_cases he : e.1 = pid
    · simp only [List.cons_append, lookupRec, if_pos he] at h ⊢
      exact h
    · simp only [List.cons_append, lookupRec, if_neg he] at h ⊢
      exact ih h

theorem lookupRec_update_self (l : List (String × ProcRecord)) (k : String)
    (f : ProcRecord → ProcRecord) :
    lookupRec (updateRec l k f) k = (lookupRec l k).map f := by
  induction l with
  | nil => rfl
  | cons e t ih =>
    by_cases he : e.1 = k
    · simp [updateRec, lookupRec, he]
    · simp [updateRec, lookupRec, he, ih]

theorem lookupRec_update_ne (l : List (String × ProcRecord)) (k q : String)
    (f : ProcRecord → ProcRecord) (h : q ≠ k) :
    lookupRec (updateRec l k f) q = lookupRec l q := by
  induction l with
  | nil => rfl
  | cons e t ih =>
    by_cases he : e.1 = k
    · have hkq : ¬ k = q := fun hk => h hk.symm
      simp [updateRec, lookupRec, he, hkq, ih]
    · simp [updateRec, lookupRec, he, ih]

theorem isTerminal_ne_waiting {st : process.Status} (ht : isTerminal st) :
    ¬ st = process.Waiting := by
  rcases ht with h | h | h <;> rw [h] <;> decide

theorem isTerminal_ne_running {st : process.Status} (ht : isTerminal st) :
    ¬ st = process.Running := by
  rcases ht with h | h | h <;> rw [h] <;> decide

theorem registerOne_keeps (s : PoolState) (p : mockProcess) (pid : String)
    (r : ProcRecord) (h : lookupRec s.index pid = some r) :
    lookupRec (registerOne s p).index pid = some r := by
  unfold registerOne
  split
  · exact h
  · exact lookupRec_append_left s.index _ pid r h

theorem registerFold_keeps (ps : List mockProcess) (s : PoolState) (pid : String)
    (r : ProcRecord) (h : lookupRec s.index pid = some r) :
    lookupRec (ps.foldl registerOne s).index pid = some r := by
  induction ps generalizing s with
  | nil => exact h
  | cons p t ih => exact ih (registerOne s p) (registerOne_keeps s p pid r h)

theorem register_keeps (s : PoolState) (ps : List mockProcess) (pid : String)
    (r : ProcRecord) (h : lookupRec s.index pid = some r) :
    lookupRec (Register s ps).index pid = some r := by
  unfold Register
  split
  · exact h
  · exact registerFold_keeps ps s pid r h

theorem startPool_index (s : PoolState) : (StartPool s).1.index = s.index := by
  unfold StartPool
  split <;> rfl

theorem closePool_index (s : PoolState) : (ClosePool s).1.index = s.index := by
  unfold ClosePool
  split <;> rfl

theorem workerFinish_poolStatus (s : PoolState) (pid : String) :
    (workerFinish s pid).status = s.status := by
  unfold workerFinish
  split
  · rfl
  · split <;> rfl

theorem kill_keeps_terminal (s : PoolState) (q pid : String) (r : ProcRecord)
    (h : lookupRec s.index pid = some r) (ht : isTerminal r.status) :
    lookupRec (Kill s q).index pid = some r := by
  unfold Kill
  split
  · exact h
  · rename_i r0 heq
    by_cases hq : q = pid
    · subst hq
      rw [h] at heq
      injection heq with he
      subst he
      rw [if_neg (isTerminal_ne_waiting ht), if_neg (isTerminal_ne_running ht)]
      exact h
    · split
      · exact (lookupRec_update_ne s.index q pid _ (fun hh => hq hh.symm)).trans h
      · split
        · exact (lookupRec_update_ne s.index q pid _ (fun hh => hq hh.symm)).trans h
        · exact h

theorem dequeue_keeps_terminal (s : PoolState) (pid : String) (r : ProcRecord)
    (h : lookupRec s.index pid = some r) (ht : isTerminal r.status) :
    lookupRec (workerDequeue s).index pid = some r := by
  unfold workerDequeue
  split
  · exact h
  · rename_i p0 rest hque
    split
    · exact h
    · rename_i r0 heq0
      split
      · rename_i hw
        by_cases hp : p0 = pid
        · subst hp
          rw [h] at heq0
          injection heq0 with he
          rw [← he] at hw
          exact absurd hw (isTerminal_ne_waiting ht)
        · exact (lookupRec_update_ne s.index p0 pid _ (fun hh => hp hh.symm)).trans h
      · exact h

theorem finishRecord_status (r : ProcRecord) (ht : isTerminal r.status) :
    (finishRecord r).status = r.status := by
  unfold finishRecord
  by_cases hk : r.status = process.Killed
  · rw [if_pos hk]
  · rw [if_neg hk, if_neg (isTerminal_ne_running ht)]

theorem finish_keeps_other (s : PoolState) (q pid : String) (r : ProcRecord)
    (h : lookupRec s.index pid = some r) (hq : ¬ q = pid) :
    lookupRec (workerFinish s q).index pid = some r := by
  unfold workerFinish
  split
  · exact h
  · split
    · exact (lookupRec_update_ne s.index q pid _ (fun hh => hq hh.symm)).trans h
    · exact h

theorem finish_keeps_frozen (s : PoolState) (q pid : String) (r : ProcRecord)
    (h : lookupRec s.index pid = some r)
    (hfr : r.bodyInvoked = false ∨ r.ended = true) :
    lookupRec (workerFinish s q).index pid = some r := by
  by_cases hq : q = pid
  · subst hq
    unfold workerFinish
    split
    · exact h
    · rename_i r0 heq
      rw [h] at heq
      injection heq with he
      subst he
      have hc : ¬ ((r.bodyInvoked && !r.ended) = true) := by
        rcases hfr with hb | hend
        · rw [hb]
          simp
        · rw [hend]
          simp
      rw [if_neg hc]
      exact h
  · exact finish_keeps_other s q pid r h hq

theorem finish_keeps_terminal_status (s : PoolState) (q pid : String) (r : ProcRecord)
    (h : lookupRec s.index pid = some r) (ht : isTerminal r.status) :
    ∃ r2, lookupRec (workerFinish s q).index pid = some r2 ∧ r2.status = r.status := by
  by_cases hq : q = pid
  · subst hq
    unfold workerFinish
    split
    · exact ⟨r, h, rfl⟩
    · rename_i r0 heq
      rw [h] at heq
      injection heq with he
      subst he
      by_cases hg : (r.bodyInvoked && !r.ended) = true
      · rw [if_pos hg]
        refine ⟨finishRecord r, ?_, finishRecord_status r ht⟩
        exact (lookupRec_update_self s.index q finishRecord).trans (by rw [h]; rfl)
      · rw [if_neg hg]
        exact ⟨r, h, rfl⟩
  · exact ⟨r, finish_keeps_other s q pid r h hq, rfl⟩

theorem applyOp_keeps_terminal_status (s : PoolState) (op : Op) (pid : String)
    (r : ProcRecord) (h : lookupRec s.index pid = some r) (ht : isTerminal r.status) :
    ∃ r2, lookupRec (applyOp s op).index pid = some r2 ∧ r2.status = r.status := by
  cases op with
  | register ps =>
    simp only [applyOp]
    exact ⟨r, register_keeps s ps pid r h, rfl⟩
  | start =>
    simp only [applyOp]
    rw [startPool_index]
    exact ⟨r, h, rfl⟩
  | kill q =>
    simp only [applyOp]
    exact ⟨r, kill_keeps_terminal s q pid r h ht, rfl⟩
  | close =>
    simp only [applyOp]
    rw [closePool_index]
    exact ⟨r, h, rfl⟩
  | dequeue =>
    simp only [applyOp]
    exact ⟨r, dequeue_keeps_terminal s pid r h ht, rfl⟩
  | finish q =>
    simp only [applyOp]
    exact finish_keeps_terminal_status s q pid r h ht

theorem applyOp_keeps_frozen (s : PoolState) (op : Op) (pid : String) (r : ProcRecord)
    (h : lookupRec s.index pid = some r) (ht : isTerminal r.status)
    (hfr : r.bodyInvoked = false ∨ r.ended = true) :
    lookupRec (applyOp s op).index pid = some r := by
  cases op with
  | register ps =>
    simp only [applyOp]
    exact register_keeps s ps pid r h
  | start =>
    simp only [applyOp]
    rw [startPool_index]
    exact h
  | kill q =>
    simp only [applyOp]
    exact kill_keeps_terminal s q pid r h ht
  | close =>
    simp only [applyOp]
    rw [closePool_index]
    exact h
  | dequeue =>
    simp only [applyOp]
    exact dequeue_keeps_terminal s pid r h ht
  | finish q =>
    simp only [applyOp]
    exact finish_keeps_frozen s q pid r h hfr

theorem applyOps_keeps_terminal_status (ops : List Op) (s : PoolState) (pid : String)
    (r : ProcRecord) (h : lookupRec s.index pid = some r) (ht : isTerminal r.status) :
    ∃ r2, lookupRec (applyOps s ops).index pid = some r2 ∧ r2.status = r.status := by
  induction ops generalizing s r ht with
  | nil => exact ⟨r, h, rfl⟩
  | cons op t ih =>
    obtain ⟨r1, h1, hs1⟩ := applyOp_keeps_terminal_status s op pid r h ht
    obtain ⟨r2, h2, hs2⟩ := ih (applyOp s op) r1 h1 (by rw [hs1]; exact ht)
    exact ⟨r2, h2, hs2.trans hs1⟩

theorem applyOps_keeps_frozen (ops : List Op) (s : PoolState) (pid : String)
    (r : ProcRecord) (h : lookupRec s.index pid = some r) (ht : isTerminal r.status)
    (hfr : r.bodyInvoked = false ∨ r.ended = true) :
    lookupRec (applyOps s ops).index pid = some r := by
  induction ops generalizing s with
  | nil => exact h
  | cons op t ih => exact ih (applyOp s op) (applyOp_keeps_frozen s op pid r h ht hfr)

/- ------------------------------------------------------------------ -/
/- Claim theorems.                                                    -/
/- ------------------------------------------------------------------ -/

/-- C7: the String() operation on the five defined process statuses
returns exactly the tokens "Waiting", "Running", "Succeeded", "Failed",
"Killed", and the five statuses are pairwise-distinct values. -/
theorem processStatus_tokens :
    process.statusString process.Waiting = "Waiting" ∧
    process.statusString process.Running = "Running" ∧
    process.statusString process.Succeeded = "Succeeded" ∧
    process.statusString process.Failed = "Failed" ∧
    process.statusString process.Killed = "Killed" ∧
    (process.Waiting ≠ process.Running ∧ process.Waiting ≠ process.Succeeded ∧
     process.Waiting ≠ process.Failed ∧ process.Waiting ≠ process.Killed ∧
     process.Running ≠ process.Succeeded ∧ process.Running ≠ process.Failed ∧
     process.Running ≠ process.Killed ∧ process.Succeeded ≠ process.Failed ∧
     process.Succeeded ≠ process.Killed ∧ process.Failed ≠ process.Killed) := by
  refine ⟨rfl, rfl, rfl, rfl, rfl, ?_⟩
  decide

/-- C8: the zero (default) value of the process Status type equals
Waiting, and the record Register builds for a unit carries exactly that
zero status, so an unset status field is observed as Waiting. -/
theorem statusZero_isWaiting :
    (0 : process.Status) = process.Waiting ∧
    ∀ p : mockProcess, (freshRecord p).status = (0 : process.Status) :=
  ⟨rfl, fun _ => rfl⟩

/-- C10: for every process Status value outside the five defined
constants, String() returns the empty string, the zero value of the
status-to-string map. -/
theorem statusString_unknown_empty (s : process.Status)
    (h1 : s ≠ process.Waiting) (h2 : s ≠ process.Running)
    (h3 : s ≠ process.Succeeded) (h4 : s ≠ process.Failed)
    (h5 : s ≠ process.Killed) :
    process.statusString s = "" := by
  unfold process.statusString process.status2String
  rw [if_neg h1, if_neg h2, if_neg h3, if_neg h4, if_neg h5]

/-- Witness for C10 at the undefined status value 7. -/
theorem statusString_unknown_empty_witness :
    process.statusString 7 = "" :=
  statusString_unknown_empty 7 (by decide) (by decide) (by decide) (by decide) (by decide)

/-- C9: for positive n and g, createProcess(n, g, d, f) builds exactly n
processes whose pids are, in order, "p-(10g+1)" … "p-(10g+n)"; in
particular createProcess(10, 1, d, f) yields pids p-11 … p-20, among
which "p-18". -/
theorem createProcess_pids (n g : Int) (d : Nat) (f : PTestFunc)
    (hn : 0 < n) (hg : 0 < g) :
    (createProcess n g d f).length = n.toNat ∧
    (createProcess n g d f).map mockProcess.pid =
      (List.range n.toNat).map
        (fun (k : Nat) => "p-" ++ toString (10 * g + ((k : Int) + 1))) ∧
    "p-18" ∈ (createProcess 10 1 d f).map mockProcess.pid := by
  refine ⟨?_, ?_, ?_⟩
  · unfold createProcess
    rw [List.length_map, List.length_range]
  · unfold createProcess newTestProcess
    rw [List.map_map]
    refine congrFun (congrArg List.map ?_) (List.range n.toNat)
    funext k
    show "p-" ++ toString (g * 10 + ((k : Int) + 1)) =
      "p-" ++ toString (10 * g + ((k : Int) + 1))
    rw [Int.mul_comm]
  · show "p-18" ∈ (["p-11", "p-12", "p-13", "p-14", "p-15",
      "p-16", "p-17", "p-18", "p-19", "p-20"] : List String)
    decide

/-- Witness for C9 at the kill-before-run scenario's batch. -/
theorem createProcess_pids_witness :
    (createProcess 10 1 3000 processFunc).length = (10 : Int).toNat ∧
    (createProcess 10 1 3000 processFunc).map mockProcess.pid =
      (List.range (10 : Int).toNat).map
        (fun (k : Nat) => "p-" ++ toString (10 * (1 : Int) + ((k : Int) + 1))) ∧
    "p-18" ∈ (createProcess 10 1 3000 processFunc).map mockProcess.pid :=
  createProcess_pids 10 1 3000 processFunc (by decide) (by decide)

/-- C4: Close() on a pool whose status is not Running returns the
PoolStateError "pool is not running, status <PoolStatus>" with the
current pool status name substituted, and leaves the pool unchanged. -/
theorem closeNotRunning_stateError (s : PoolState) (h : s.status ≠ PoolStatus.Running) :
    (ClosePool s).2 = some ("pool is not running, status " ++ poolStatusString s.status) ∧
    (ClosePool s).1 = s := by
  unfold ClosePool
  rw [if_neg h]
  exact ⟨rfl, rfl⟩

/-- Witness for C4: Close on a freshly created pool yields the message
"pool is not running, status Created" and the pool is unchanged. -/
theorem closeNotRunning_stateError_witness :
    (ClosePool (NewPool 3)).2 = some "pool is not running, status Created" ∧
    (ClosePool (NewPool 3)).1 = NewPool 3 := by
  have h := closeNotRunning_stateError (NewPool 3) (by decide)
  exact ⟨h.1, h.2⟩

/-- C5: Start() on a pool whose status is not Created returns the
PoolStateError "unable to start the pool, status: <PoolStatus>" with the
current pool status name substituted, and leaves the pool unchanged. -/
theorem startNotCreated_stateError (s : PoolState) (h : s.status ≠ PoolStatus.Created) :
    (StartPool s).2 = some ("unable to start the pool, status: " ++ poolStatusString s.status) ∧
    (StartPool s).1 = s := by
  unfold StartPool
  rw [if_neg h]
  exact ⟨rfl, rfl⟩

/-- Witness for C5: a second Start on a Running pool yields the message
"unable to start the pool, status: Running". -/
theorem startNotCreated_stateError_witness :
    (StartPool c5State).2 = some "unable to start the pool, status: Running" ∧
    (StartPool c5State).1 = c5State := by
  have h := startNotCreated_stateError c5State (by decide)
  exact ⟨h.1, h.2⟩

/-- C3: once a process record's status is terminal (Succeeded, Failed or
Killed), no operation of the pool — Register, Start, Kill, Close or a
worker's dequeue/finish step — changes that status. -/
theorem terminalStatus_sticky (s : PoolState) (pid : String)
    (st : process.Status) (h : monitorProcessStatus s pid = some st)
    (ht : isTerminal st) :
    ∀ ops : List Op, monitorProcessStatus (applyOps s ops) pid = some st := by
  intro ops
  unfold monitorProcessStatus at h ⊢
  cases hl : lookupRec s.index pid with
  | none =>
    rw [hl] at h
    exact Option.noConfusion h
  | some r =>
    rw [hl, Option.map_some'] at h
    injection h with h2
    have ht2 : isTerminal r.status := by
      rw [h2]
      exact ht
    obtain ⟨r2, hlk, hst2⟩ := applyOps_keeps_terminal_status ops s pid r hl ht2
    rw [hlk, Option.map_some', hst2, h2]

/-- Witness for C3: a unit killed while waiting stays Killed across a
worker dequeue step followed by a close. -/
theorem terminalStatus_sticky_witness :
    monitorProcessStatus (applyOps c3State [Op.dequeue, Op.close]) "p-11" =
      some process.Killed :=
  terminalStatus_sticky c3State "p-11" process.Killed rfl
    (Or.inr (Or.inr rfl)) [Op.dequeue, Op.close]

/-- C2: a unit whose status is Waiting when Kill(pid) is called ends in
terminal status Killed with the standard cancellation error stored, and
its body is never invoked: whatever pool operations follow — including
the worker dequeue that skips the killed record — the unit's status stays
Killed, its stored error stays intact, and its bodyInvoked flag stays
false. -/
theorem killWaitingUnit_skipped (s : PoolState) (pid : String) (r : ProcRecord)
    (hl : lookupRec s.index pid = some r)
    (hst : r.status = process.Waiting)
    (hb : r.bodyInvoked = false) :
    ∀ ops : List Op,
      monitorProcessStatus (applyOps (Kill s pid) ops) pid = some process.Killed ∧
      monitorError (applyOps (Kill s pid) ops) pid = some errCancelled ∧
      ∃ r2, lookupRec (applyOps (Kill s pid) ops).index pid = some r2 ∧
        r2.bodyInvoked = false := by
  have hK : lookupRec (Kill s pid).index pid =
      some { r with status := process.Killed, err := some errCancelled, cancelled := true } := by
    unfold Kill
    split
    · rename_i heq
      rw [hl] at heq
      exact Option.noConfusion heq
    · rename_i r0 heq
      rw [hl] at heq
      injection heq with he0
      subst he0
      rw [if_pos hst]
      exact (lookupRec_update_self s.index pid _).trans (by rw [hl]; rfl)
  intro ops
  have hfrozen := applyOps_keeps_frozen ops (Kill s pid) pid _ hK
    (Or.inr (Or.inr rfl)) (Or.inl hb)
  refine ⟨?_, ?_, ?_⟩
  · unfold monitorProcessStatus
    rw [hfrozen]
    rfl
  · unfold monitorError
    rw [hfrozen]
    rfl
  · exact ⟨_, hfrozen, hb⟩

/-- Witness for C2: killing the waiting unit "p-18" of the kill-before-run
scenario, then running the remaining worker dequeues and closing. -/
theorem killWaitingUnit_skipped_witness :
    monitorProcessStatus (applyOps (Kill c2State "p-18") c2Ops) "p-18" =
      some process.Killed ∧
    monitorError (applyOps (Kill c2State "p-18") c2Ops) "p-18" = some errCancelled ∧
    ∃ r2, lookupRec (applyOps (Kill c2State "p-18") c2Ops).index "p-18" = some r2 ∧
      r2.bodyInvoked = false :=
  killWaitingUnit_skipped c2State "p-18" c2Rec rfl rfl rfl c2Ops

/-- C1: a unit in Running status when Kill(pid) is called becomes Killed
at once; after the worker observes the fired token and stores the body's
cancellation error, the unit stays Killed under every further pool
operation and Monitor.Error(pid) returns the non-empty error with message
exactly "task was cancelled". -/
theorem killRunningUnit_cancelled (s : PoolState) (pid : String) (r : ProcRecord)
    (hl : lookupRec s.index pid = some r)
    (hst : r.status = process.Running)
    (hb : r.bodyInvoked = true)
    (he : r.ended = false)
    (hf : r.proc.pFunc = processFunc) :
    monitorProcessStatus (Kill s pid) pid = some process.Killed ∧
    ∀ ops : List Op,
      monitorProcessStatus (applyOps (workerFinish (Kill s pid) pid) ops) pid =
        some process.Killed ∧
      monitorError (applyOps (workerFinish (Kill s pid) pid) ops) pid =
        some "task was cancelled" := by
  have hK : lookupRec (Kill s pid).index pid =
      some { r with status := process.Killed, cancelled := true } := by
    unfold Kill
    split
    · rename_i heq
      rw [hl] at heq
      exact Option.noConfusion heq
    · rename_i r0 heq
      rw [hl] at heq
      injection heq with he0
      subst he0
      rw [if_neg (by rw [hst]; decide), if_pos hst]
      exact (lookupRec_update_self s.index pid _).trans (by rw [hl]; rfl)
  have hguard : (({ r with status := process.Killed, cancelled := true } : ProcRecord).bodyInvoked &&
      !({ r with status := process.Killed, cancelled := true } : ProcRecord).ended) = true := by
    show (r.bodyInvoked && !r.ended) = true
    rw [hb, he]
    rfl
  have hfin : finishRecord { r with status := process.Killed, cancelled := true } =
      { r with
        status := process.Killed
        cancelled := true
        err := some errCancelled
        ended := true } := by
    unfold finishRecord
    simp [hf, processFunc]
  have hF : lookupRec (workerFinish (Kill s pid) pid).index pid =
      some { r with
        status := process.Killed
        cancelled := true
        err := some errCancelled
        ended := true } := by
    unfold workerFinish
    split
    · rename_i heq
      rw [hK] at heq
      exact Option.noConfusion heq
    · rename_i r1 heq
      rw [hK] at heq
      injection heq with he1
      subst he1
      rw [if_pos hguard]
      exact (lookupRec_update_self _ _ _).trans (by rw [hK]; simp [hfin])
  refine ⟨?_, ?_⟩
  · unfold monitorProcessStatus
    rw [hK]
    rfl
  · intro ops
    have hfrozen := applyOps_keeps_frozen ops (workerFinish (Kill s pid) pid) pid _ hF
      (Or.inr (Or.inr rfl)) (Or.inr rfl)
    constructor
    · unfold monitorProcessStatus
      rw [hfrozen]
      rfl
    · unfold monitorError
      rw [hfrozen]
      rfl

/-- Witness for C1: the kill-after-start scenario, killing the running
unit "p-12", letting its worker record the cancellation, then closing. -/
theorem killRunningUnit_cancelled_witness :
    monitorProcessStatus (Kill c1State "p-12") "p-12" = some process.Killed ∧
    monitorProcessStatus
      (applyOps (workerFinish (Kill c1State "p-12") "p-12") [Op.close]) "p-12" =
      some process.Killed ∧
    monitorError
      (applyOps (workerFinish (Kill c1State "p-12") "p-12") [Op.close]) "p-12" =
      some "task was cancelled" := by
  have h := killRunningUnit_cancelled c1State "p-12" c1Rec rfl rfl rfl rfl rfl
  exact ⟨h.1, (h.2 [Op.close]).1, (h.2 [Op.close]).2⟩

/-- C6: a running unit whose body returns a non-empty error (and that was
not previously Killed) ends Failed with the returned error stored
verbatim and retrievable via Monitor.Error; the worker step leaves the
pool status unchanged and Close() still succeeds, reaching Closed. -/
theorem failingUnit_failed (s : PoolState) (pid : String) (r : ProcRecord) (e : String)
    (hl : lookupRec s.index pid = some r)
    (hst : r.status = process.Running)
    (hb : r.bodyInvoked = true)
    (he : r.ended = false)
    (hres : r.proc.pFunc r.cancelled r.proc.pid r.proc.sleepTime = some e)
    (hpool : s.status = PoolStatus.Running) :
    monitorProcessStatus (workerFinish s pid) pid = some process.Failed ∧
    monitorError (workerFinish s pid) pid = some e ∧
    monitorPoolStatus (workerFinish s pid) = s.status ∧
    (ClosePool (workerFinish s pid)).2 = none ∧
    monitorPoolStatus (ClosePool (workerFinish s pid)).1 = PoolStatus.Closed := by
  have hguard : (r.bodyInvoked && !r.ended) = true := by
    rw [hb, he]
    rfl
  have hfin : finishRecord r =
      { r with status := process.Failed, err := some e, ended := true } := by
    unfold finishRecord
    rw [if_neg (by rw [hst]; decide), if_pos hst, hres]
  have hF : lookupRec (workerFinish s pid).index pid =
      some { r with status := process.Failed, err := some e, ended := true } := by
    unfold workerFinish
    split
    · rename_i heq
      rw [hl] at heq
      exact Option.noConfusion heq
    · rename_i r0 heq
      rw [hl] at heq
      injection heq with he0
      subst he0
      rw [if_pos hguard]
      exact (lookupRec_update_self s.index pid finishRecord).trans (by rw [hl]; simp [hfin])
  have hps : (workerFinish s pid).status = PoolStatus.Running :=
    (workerFinish_poolStatus s pid).trans hpool
  refine ⟨?_, ?_, ?_, ?_, ?_⟩
  · unfold monitorProcessStatus
    rw [hF]
    rfl
  · unfold monitorError
    rw [hF]
    rfl
  · exact workerFinish_poolStatus s pid
  · unfold ClosePool
    rw [if_pos hps]
  · unfold ClosePool monitorPoolStatus
    rw [if_pos hps]

/-- Witness for C6: the failing-unit scenario, whose body reports
"unable to start processFunc with id: p-11". -/
theorem failingUnit_failed_witness :
    monitorProcessStatus (workerFinish c6State "p-11") "p-11" = some process.Failed ∧
    monitorError (workerFinish c6State "p-11") "p-11" =
      some "unable to start processFunc with id: p-11" ∧
    monitorPoolStatus (workerFinish c6State "p-11") = c6State.status ∧
    (ClosePool (workerFinish c6State "p-11")).2 = none ∧
    monitorPoolStatus (ClosePool (workerFinish c6State "p-11")).1 = PoolStatus.Closed :=
  failingUnit_failed c6State "p-11" c6Rec
    "unable to start processFunc with id: p-11" rfl rfl rfl rfl rfl rfl
